import Mathlib

/-!
# Verification of the incident-grouping and case-classification pipeline

Shallow embedding of the core pipeline of this repository:

* `src/lambda/production/ticket-generator/src/classifier.py`
  (`process_classification`, `batch_classify_events`, thresholds)
* `src/lambda/ticket-generator/src/context_manager.py` (`get_reference_story`)
* `src/lambda/ticket-generator/src/grouper.py` (`group_events_by_context`)
* `src/lambda/ticket-generator/src/lambda_function.py`
  (`get_next_group_id_start`, `bulk_index_grouped_events`,
   `process_single_group`, the `lambda_handler` grouping core)

External collaborators (OpenSearch/Elasticsearch queries, the embedding
service, and the generative model) are modelled as explicit parameters:
a call that can raise a Python exception becomes an `Except String _`
value, and the generative grouping response is abstracted to the shapes
the Python code distinguishes (call raises / content unparsable as JSON /
parsed list, possibly under a `"tickets"` key).  Python dicts with
optional keys become structures with `Option` fields; float similarity
scores become `ℚ`.
-/

/-- One detection record (a Python dict in the source).  Only the keys the
core pipeline reads or writes are modelled; absent dict keys are `none`.
`tmp_index` is the transient per-run positional id assigned by the
orchestrator, `predicted_case_id` / `similarity_score` /
`generated_summary` are written by the classifier, and `ai_group_id` /
`ai_grouped_at` are stamped at persistence time. -/
structure Event where
  uniqueId : String
  hostName : String
  eventTime : String
  tmp_index : Option Nat := none
  predicted_case_id : Option String := none
  similarity_score : Option ℚ := none
  generated_summary : Option String := none
  ai_group_id : Option Nat := none
  ai_grouped_at : Option String := none
deriving Repr, DecidableEq

/-- Per-case similarity thresholds, from `classifier.py`
(`CASE_THRESHOLDS` in `process_classification`). -/
def CASE_THRESHOLDS : List (String × ℚ) :=
  [("INCIDENT-20251010-45", mkRat 90 100), ("INCIDENT-20251003-024", mkRat 88 100)]

/-- Default acceptance threshold (`DEFAULT_THRESHOLD = 0.80` in
`classifier.py`). -/
def DEFAULT_THRESHOLD : ℚ := mkRat 80 100

/-- `CASE_THRESHOLDS.get(case_id, DEFAULT_THRESHOLD)` from
`process_classification`. -/
def lookupThreshold (case_id : String) : ℚ :=
  (CASE_THRESHOLDS.lookup case_id).getD DEFAULT_THRESHOLD

/-- The effectful body of the `try` block of `process_classification`
(classifier.py lines 52-60): build the summary, embed it, and run the
nearest-case search.  Each collaborator may raise (`Except.error`); the
search returns `none` when the case store has no hit (`search_similar_case`
returning `(None, 0.0)`), else the top hit's case id and score. -/
def classify_steps (summarize : Event → Except String String)
    (embed : String → Except String (List ℚ))
    (search : List ℚ → Except String (Option (String × ℚ)))
    (event : Event) : Except String (String × Option (String × ℚ)) := do
  let summary ← summarize event
  let vector ← embed summary
  let res ← search vector
  pure (summary, res)

/-- `process_classification` from
`src/lambda/production/ticket-generator/src/classifier.py` lines 40-86:
summary → embedding → nearest-case search → threshold decision, with the
catch-all `except` branch setting only `predicted_case_id = "ERROR"`. -/
def process_classification (summarize : Event → Except String String)
    (embed : String → Except String (List ℚ))
    (search : List ℚ → Except String (Option (String × ℚ)))
    (event : Event) : Event :=
  match classify_steps summarize embed search event with
  | .error _ => { event with predicted_case_id := some "ERROR" }
  | .ok (summary, none) =>
      { event with
          predicted_case_id := some "UNKNOWN",
          similarity_score := some 0,
          generated_summary := some ("[Unknown Activity Pattern]\n" ++ summary) }
  | .ok (summary, some (case_id, score)) =>
      let threshold := lookupThreshold case_id
      if threshold ≤ score then
        { event with
            predicted_case_id := some case_id,
            similarity_score := some score,
            generated_summary := some summary }
      else
        { event with
            predicted_case_id := some "UNKNOWN",
            similarity_score := some score,
            generated_summary := some summary }

/-- `batch_classify_events` (classifier.py lines 88-95):
`ThreadPoolExecutor.map` preserves input order, so the batch result is the
ordered map of `process_classification` over the events. -/
def batch_classify_events (summarize : Event → Except String String)
    (embed : String → Except String (List ℚ))
    (search : List ℚ → Except String (Option (String × ℚ)))
    (events : List Event) : List Event :=
  events.map (process_classification summarize embed search)

/-- One step of a catalogued case in the case store (the documents
`get_reference_story` queries by `case_id`, reading `event_seq` and
`summary`). -/
structure CaseStep where
  case_id : String
  event_seq : Nat
  summary : String
deriving Repr, DecidableEq

/-- Insert a step into a list sorted ascending by `event_seq` (the sort the
store performs for the `{"sort": [{"event_seq": {"order": "asc"}}]}`
clause of the query in `context_manager.py`). -/
def insertStep (s : CaseStep) : List CaseStep → List CaseStep
  | [] => [s]
  | t :: ts => if s.event_seq ≤ t.event_seq then s :: t :: ts else t :: insertStep s ts

/-- Ascending-by-`event_seq` sort of the store's hits. -/
def sortSteps : List CaseStep → List CaseStep
  | [] => []
  | s :: ss => insertStep s (sortSteps ss)

/-- The case-store query issued by `get_reference_story`: all documents with
the given `case_id`, sorted ascending by `event_seq`, capped at the query's
`"size": 10`. -/
def caseStoreQuery (store : List CaseStep) (case_id : String) : List CaseStep :=
  (sortSteps (store.filter (fun s => s.case_id = case_id))).take 10

/-- `get_reference_story` from
`src/lambda/ticket-generator/src/context_manager.py` lines 4-39: sentinel
case ids short-circuit to a fixed instructive string; an empty hit set
yields the fixed no-reference-data string; otherwise a header line plus one
`[Step n] summary` line per hit, joined with newlines. -/
def get_reference_story (store : List CaseStep) (case_id : String) : String :=
  if case_id = "UNKNOWN" ∨ case_id = "ERROR" then
    "참고할 과거 사례가 없습니다 (신규 위협 가능성)."
  else
    let hits := caseStoreQuery store case_id
    if hits.isEmpty then "참고 데이터 없음"
    else
      String.intercalate "\n"
        (("참고 사례 ID: " ++ case_id) ::
          hits.map (fun h => "[Step " ++ toString h.event_seq ++ "] " ++ h.summary))

/-- Modelled from the spec: the Reference Story Builder contract of §4.2,
which queries "the case store for **all** steps tagged with `case_id`,
sorted ascending by step sequence number" — with no size cap.  The fixed
sentinel / no-data strings and the header line are instantiated from the
code, since the spec leaves their exact text abstract; the only difference
from `get_reference_story` is the absence of the query's `"size": 10`
truncation. -/
def build_story_spec (store : List CaseStep) (case_id : String) : String :=
  if case_id = "UNKNOWN" ∨ case_id = "ERROR" then
    "참고할 과거 사례가 없습니다 (신규 위협 가능성)."
  else
    let hits := sortSteps (store.filter (fun s => s.case_id = case_id))
    if hits.isEmpty then "참고 데이터 없음"
    else
      String.intercalate "\n"
        (("참고 사례 ID: " ++ case_id) ::
          hits.map (fun h => "[Step " ++ toString h.event_seq ++ "] " ++ h.summary))

/-- One group of the parsed generative grouping response (grouper.py's
expected JSON objects `{ticket_title, host, event_ids, reason}`). -/
structure RawGroup where
  ticket_title : String
  host : String
  event_ids : List Nat
  reason : String
deriving Repr, DecidableEq

/-- Outcome of the generative grouping call in `group_events_by_context`
(grouper.py lines 59-76), abstracting the shapes the Python code
distinguishes:
* `raises` — `client.chat.completions.create` raises; the exception
  propagates out of `group_events_by_context` to its caller;
* `unparsable` — the call returns but `json.loads` on the content (or the
  result extraction) raises, landing in the bare `except: return []`;
* `parsedList gs` — the content parses to a JSON list of groups;
* `parsedTicketsObj gs` — the content parses to `{"tickets": [...]}`,
  unwrapped by the `if "tickets" in result` correction. -/
inductive GroupOutcome where
  | raises (msg : String)
  | unparsable
  | parsedList (gs : List RawGroup)
  | parsedTicketsObj (gs : List RawGroup)
deriving Repr, DecidableEq

/-- `group_events_by_context` from
`src/lambda/ticket-generator/src/grouper.py`: the prompt built from
`predicted_case_id`, the events and `reference_story` only feeds the
external model (it does not influence control flow), so the function's
value is determined by the call outcome.  `Except.error` models an
exception propagating to the caller; note that an unparsable response is
swallowed into `Except.ok []`, not an error. -/
def group_events_by_context (outcome : GroupOutcome) (predicted_case_id : String)
    (incoming_events : List Event) (reference_story : String) :
    Except String (List RawGroup) :=
  match outcome with
  | .raises msg => .error msg
  | .unparsable => .ok []
  | .parsedList gs => .ok gs
  | .parsedTicketsObj gs => .ok gs

/-- The output unit (a ticket dict): the parsed group's fields plus the
resolved member events; the fallback tickets of `process_single_group`
carry only `events`. -/
structure Ticket where
  ticket_title : Option String := none
  host : Option String := none
  reason : Option String := none
  events : List Event
deriving Repr, DecidableEq

/-- The `event_map = {ev['tmp_index']: ev for ev in group_events}` lookup of
`process_single_group`: a Python dict comprehension keeps the last entry
for a duplicated key. -/
def event_map (group_events : List Event) (eid : Nat) : Option Event :=
  (group_events.filter (fun ev => ev.tmp_index = some eid)).getLast?

/-- Lines 159-169 of `process_single_group`
(`src/lambda/ticket-generator/src/lambda_function.py`): each parsed group
becomes a ticket whose `events` are the in-order resolutions of its
`event_ids`; an id with no matching event in the bucket is silently
skipped. -/
def resolveGroups (gs : List RawGroup) (group_events : List Event) : List Ticket :=
  gs.map (fun g =>
    { ticket_title := some g.ticket_title,
      host := some g.host,
      reason := some g.reason,
      events := g.event_ids.filterMap (event_map group_events) })

/-- The fallback of `process_single_group`'s `except` branch: one singleton
ticket per event of the bucket. -/
def fallbackTickets (group_events : List Event) : List Ticket :=
  group_events.map (fun ev => { events := [ev] })

/-- `process_single_group` from
`src/lambda/ticket-generator/src/lambda_function.py` lines 139-178.
`storyOf` is the reference-story collaborator (`get_reference_story`, an
OpenSearch query that may raise); sentinel buckets use the fixed
instructive string instead.  Any exception inside the `try` block — the
story query raising, or the grouping call raising — triggers the
singleton-ticket fallback; a grouping call whose response was unparsable
returns `[]` from the grouper, so the loop body runs zero times and the
bucket yields no tickets. -/
def process_single_group (storyOf : String → Except String String)
    (outcome : GroupOutcome) (case_id : String) (group_events : List Event) :
    List Ticket :=
  let story : Except String String :=
    if case_id = "UNKNOWN" ∨ case_id = "ERROR" then
      .ok "이 사건은 기존 공격 시나리오와 일치하지 않는 UNKNOWN 그룹입니다. Target Events 간의 시간/호스트/행위 기반으로 자동 클러스터링하세요."
    else storyOf case_id
  match story with
  | .error _ => fallbackTickets group_events
  | .ok reference_story =>
      match group_events_by_context outcome case_id group_events reference_story with
      | .error _ => fallbackTickets group_events
      | .ok gs => resolveGroups gs group_events

/-- `get_next_group_id_start` from
`src/lambda/ticket-generator/src/lambda_function.py` lines 18-44: the
max-`ai_group_id` aggregation over the historical output scope
`planit-edr-ai-grouping-*`.  `searchResult` is the outcome of the
Elasticsearch call: an exception (`Except.error`), no prior id
(`Except.ok none`, the aggregation value `None`), or the maximum
previously-assigned id. -/
def get_next_group_id_start (searchResult : Except String (Option Nat)) : Nat :=
  match searchResult with
  | .error _ => 1
  | .ok none => 1
  | .ok (some maxVal) => maxVal + 1

/-- `ev['ai_group_id'] = group_id; ev['ai_grouped_at'] = grouped_at;
ev.pop('tmp_index', None)` applied to every member event of one ticket in
`bulk_index_grouped_events` (the `_id` bookkeeping for the bulk action
lines is not modelled — it never flows back into the pipeline). -/
def stamp_ticket (group_id : Nat) (grouped_at : String) (t : Ticket) : Ticket :=
  { t with events := t.events.map (fun ev =>
      { ev with
          ai_group_id := some group_id,
          ai_grouped_at := some grouped_at,
          tmp_index := none }) }

/-- The id-assignment loop of `bulk_index_grouped_events`
(`src/lambda/ticket-generator/src/lambda_function.py` lines 101-137):
`current_id_counter` starts at `start_id` and each ticket, in
ticket-output order, consumes one id.  Returns the stamped tickets and the
final counter value. -/
def bulk_index_loop (grouped_at : String) : Nat → List Ticket → List Ticket × Nat
  | counter, [] => ([], counter)
  | counter, t :: rest =>
      let tail := bulk_index_loop grouped_at (counter + 1) rest
      (stamp_ticket counter grouped_at t :: tail.1, tail.2)

/-- `bulk_index_grouped_events`: stamped tickets, saved-document count (one
bulk doc per member event) and the final counter. -/
def bulk_index_grouped_events (tickets : List Ticket) (start_id : Nat)
    (grouped_at : String) : List Ticket × Nat × Nat :=
  let assigned := bulk_index_loop grouped_at start_id tickets
  (assigned.1, (assigned.1.map (fun t => t.events.length)).sum, assigned.2)

/-- The tagging loop `for idx, ev in enumerate(raw_events):
ev['tmp_index'] = idx` of `lambda_handler`, with the running index made
explicit. -/
def tagEvents : Nat → List Event → List Event
  | _, [] => []
  | idx, ev :: rest => { ev with tmp_index := some idx } :: tagEvents (idx + 1) rest

/-- `buckets[key].append(ev)` on a `defaultdict(list)` kept as an ordered
association list (Python dicts preserve key-insertion order). -/
def addToBuckets (bs : List (String × List Event)) (key : String) (ev : Event) :
    List (String × List Event) :=
  match bs with
  | [] => [(key, [ev])]
  | (k, evs) :: rest =>
      if k = key then (k, evs ++ [ev]) :: rest
      else (k, evs) :: addToBuckets rest key ev

/-- The bucketing loop of `lambda_handler` (step 3): partition the
classified events by `ev.get('predicted_case_id', 'UNKNOWN')`. -/
def bucketize (events : List Event) : List (String × List Event) :=
  events.foldl (fun bs ev => addToBuckets bs (ev.predicted_case_id.getD "UNKNOWN") ev) []

/-- The grouping core of `lambda_handler`
(`src/lambda/ticket-generator/src/lambda_function.py` lines 199-223): tag
the fetched events with positional ids, classify them all, bucket by
predicted case id, run `process_single_group` per bucket (the
`ThreadPoolExecutor.map` keeps bucket order) and concatenate the resulting
tickets.  `outcomes` gives each bucket's generative grouping outcome by
case id. -/
def run_grouping (raw_events : List Event)
    (summarize : Event → Except String String)
    (embed : String → Except String (List ℚ))
    (search : List ℚ → Except String (Option (String × ℚ)))
    (storyOf : String → Except String String)
    (outcomes : String → GroupOutcome) : List Ticket :=
  let tagged := tagEvents 0 raw_events
  let classified := batch_classify_events summarize embed search tagged
  let buckets := bucketize classified
  (buckets.map (fun b => process_single_group storyOf (outcomes b.1) b.1 b.2)).flatten

/-! ## Concrete fixtures used by witnesses and counterexamples -/

/-- A fresh malicious event as fetched from the input index (no
classification fields yet). -/
def ev0 : Event :=
  { uniqueId := "EVT-1", hostName := "HOST-1", eventTime := "2025-11-20T14:00:01Z" }

/-- A second fresh event on another host. -/
def ev1 : Event :=
  { uniqueId := "EVT-2", hostName := "HOST-2", eventTime := "2025-11-20T14:00:02Z" }

/-- Generative summarizer that answers normally. -/
def summarizeOk : Event → Except String String := fun _ => .ok "summary text"

/-- Generative summarizer whose call raises. -/
def summarizeErr : Event → Except String String := fun _ => .error "LLM call failed"

/-- Embedding service that answers normally. -/
def embedOk : String → Except String (List ℚ) := fun _ => .ok [1]

/-- Nearest-case search returning case `CASE-A` with perfect score. -/
def searchHit : List ℚ → Except String (Option (String × ℚ)) := fun _ => .ok (some ("CASE-A", 1))

/-- Reference-story query that answers normally. -/
def storyOk : String → Except String String := fun _ => .ok "reference story"

/-! ## Theorems -/

/-- C9: if the max-group-id query over the historical destination scope
raises, `get_next_group_id_start` returns 1 — exactly the starting id of an
empty destination — instead of propagating the error, whereas a successful
query with maximum `m` starts at `m + 1`; so after a transient search
failure the run restarts the sequence at 1 and can reissue
already-issued group ids. -/
theorem allocator_swallows_search_failure :
    (∀ msg, get_next_group_id_start (Except.error msg) = 1) ∧
    get_next_group_id_start (Except.ok none) = 1 ∧
    (∀ m, get_next_group_id_start (Except.ok (some m)) = m + 1) :=
  ⟨fun _ => rfl, rfl, fun _ => rfl⟩

/-- Helper: the id-assignment loop of `bulk_index_grouped_events` stamps the
`j`-th ticket's member events with id `S + j` and ends with counter
`S + N`. -/
theorem bulk_index_loop_ids (g : String) :
    ∀ (tickets : List Ticket) (S : Nat),
      (bulk_index_loop g S tickets).1.length = tickets.length ∧
      (bulk_index_loop g S tickets).2 = S + tickets.length ∧
      ∀ j (hj : j < (bulk_index_loop g S tickets).1.length),
        ∀ ev ∈ ((bulk_index_loop g S tickets).1.get ⟨j, hj⟩).events,
          ev.ai_group_id = some (S + j)
  | [], S => by simp [bulk_index_loop]
  | t :: rest, S => by
    obtain ⟨ih1, ih2, ih3⟩ := bulk_index_loop_ids g rest (S + 1)
    refine ⟨by simp [bulk_index_loop, ih1], by simp [bulk_index_loop, ih2]; omega, ?_⟩
    intro j hj ev hev
    match j with
    | 0 =>
      simp only [bulk_index_loop, List.get] at hev
      simp only [stamp_ticket, List.mem_map] at hev
      obtain ⟨e, _, rfl⟩ := hev
      simp
    | j' + 1 =>
      have hj' : j' < (bulk_index_loop g (S + 1) rest).1.length := by
        simp only [bulk_index_loop, List.length_cons] at hj
        omega
      have hev' : ev ∈ ((bulk_index_loop g (S + 1) rest).1.get ⟨j', hj'⟩).events := by
        simpa only [bulk_index_loop, List.get] using hev
      have := ih3 j' hj' ev hev'
      rw [this]
      congr 1
      omega

/-- C5: for a run persisting `N` tickets with allocator starting value `S`,
`bulk_index_grouped_events` produces one output ticket per input ticket in
order, the `j`-th ticket's member events are all stamped with group id
`S + j` (so the assigned ids are exactly `{S, ..., S + N - 1}`, each used
once), the final counter is `S + N`; and an empty destination scope makes
the allocator start at `S = 1`. -/
theorem run_ids_are_contiguous_block (g : String) (S : Nat) (tickets : List Ticket) :
    (bulk_index_grouped_events tickets S g).1.length = tickets.length ∧
    (bulk_index_grouped_events tickets S g).2.2 = S + tickets.length ∧
    (∀ j (hj : j < (bulk_index_grouped_events tickets S g).1.length),
      ∀ ev ∈ ((bulk_index_grouped_events tickets S g).1.get ⟨j, hj⟩).events,
        ev.ai_group_id = some (S + j)) ∧
    get_next_group_id_start (Except.ok none) = 1 := by
  obtain ⟨h1, h2, h3⟩ := bulk_index_loop_ids g tickets S
  exact ⟨h1, h2, h3, rfl⟩

/-- `ev1` as persisted with group id 6 at a fixed grouping time. -/
def ev1stamped : Event :=
  { ev1 with
      ai_group_id := some 6,
      ai_grouped_at := some "2025-11-20T15:00:00Z",
      tmp_index := none }

/-- Witness for C5: two one-event tickets persisted from start id 5; the
second ticket's event carries id 6 = 5 + 1. -/
theorem run_ids_are_contiguous_block_witness :
    ev1stamped.ai_group_id = some (5 + 1) :=
  (run_ids_are_contiguous_block "2025-11-20T15:00:00Z" 5
      [{ events := [ev0] }, { events := [ev1] }]).2.2.1 1 (by decide)
    ev1stamped (by decide)

/-- C2: when the nearest-case search returns candidate `case_id` with
similarity `score`, the classifier resolves the threshold `T` for that case
(per-case override in `CASE_THRESHOLDS`, else `DEFAULT_THRESHOLD = 0.80`),
accepts the candidate iff `score ≥ T` (else `"UNKNOWN"`), and records the
score and the generated summary on the event in both outcomes. -/
theorem threshold_decision (summarize : Event → Except String String)
    (embed : String → Except String (List ℚ))
    (search : List ℚ → Except String (Option (String × ℚ)))
    (ev : Event) (summary : String) (vec : List ℚ) (case_id : String) (score : ℚ)
    (hs : summarize ev = .ok summary) (he : embed summary = .ok vec)
    (hr : search vec = .ok (some (case_id, score))) :
    (lookupThreshold case_id ≤ score →
      (process_classification summarize embed search ev).predicted_case_id = some case_id) ∧
    (score < lookupThreshold case_id →
      (process_classification summarize embed search ev).predicted_case_id = some "UNKNOWN") ∧
    (process_classification summarize embed search ev).similarity_score = some score ∧
    (process_classification summarize embed search ev).generated_summary = some summary ∧
    lookupThreshold case_id = (CASE_THRESHOLDS.lookup case_id).getD DEFAULT_THRESHOLD := by
  have hsteps : classify_steps summarize embed search ev = .ok (summary, some (case_id, score)) := by
    simp [classify_steps, hs, he, hr, Bind.bind, Except.bind, Functor.map, Except.map,
      Pure.pure, Except.pure]
  refine ⟨?_, ?_, ?_, ?_, rfl⟩
  · intro hT
    simp [process_classification, hsteps, hT]
  · intro hT
    simp [process_classification, hsteps, not_le.mpr hT]
  · by_cases hT : lookupThreshold case_id ≤ score <;>
      simp [process_classification, hsteps, hT]
  · by_cases hT : lookupThreshold case_id ≤ score <;>
      simp [process_classification, hsteps, hT]

/-- A nearest-case search hitting the override case `INCIDENT-20251010-45`
(threshold 0.90) with score 0.92. -/
def searchIncident : List ℚ → Except String (Option (String × ℚ)) :=
  fun _ => .ok (some ("INCIDENT-20251010-45", mkRat 92 100))

/-- Witness for C2: score 0.92 against the case-specific threshold 0.90 of
`INCIDENT-20251010-45` accepts the candidate. -/
theorem threshold_decision_witness :
    (process_classification summarizeOk embedOk searchIncident ev0).predicted_case_id =
      some "INCIDENT-20251010-45" :=
  (threshold_decision summarizeOk embedOk searchIncident ev0 "summary text" [1]
      "INCIDENT-20251010-45" (mkRat 92 100) rfl rfl rfl).1 (by decide)

/-- C3: if any exception is raised during summary generation, embedding, or
nearest-case search (`classify_steps` erroring at any stage), the classifier
returns the event marked `predicted_case_id = "ERROR"` — the `except`
branch, which never re-raises (the embedding is a total function) — and
that marked event is still part of the batch-classify output whenever the
event was part of the batch input. -/
theorem classification_error_sentinel (summarize : Event → Except String String)
    (embed : String → Except String (List ℚ))
    (search : List ℚ → Except String (Option (String × ℚ)))
    (ev : Event) (msg : String)
    (h : classify_steps summarize embed search ev = .error msg) :
    process_classification summarize embed search ev =
      { ev with predicted_case_id := some "ERROR" } ∧
    ∀ events, ev ∈ events →
      { ev with predicted_case_id := some "ERROR" } ∈
        batch_classify_events summarize embed search events := by
  have h1 : process_classification summarize embed search ev =
      { ev with predicted_case_id := some "ERROR" } := by
    simp [process_classification, h]
  refine ⟨h1, fun events hmem => ?_⟩
  simpa [batch_classify_events, h1] using
    List.mem_map_of_mem (process_classification summarize embed search) hmem

/-- Witness for C3: a summarizer whose call raises yields the `"ERROR"`
sentinel on the event. -/
theorem classification_error_sentinel_witness :
    process_classification summarizeErr embedOk searchHit ev0 =
      { ev0 with predicted_case_id := some "ERROR" } :=
  (classification_error_sentinel summarizeErr embedOk searchHit ev0 "LLM call failed" rfl).1

/-- Counterexample for C4: on the error path the code sets only
`predicted_case_id`; for a fresh event whose summarization raises, the
returned event has no `similarity_score` and no `generated_summary`, so the
three output fields are not all set. -/
theorem classify_error_missing_fields :
    ¬ (((process_classification summarizeErr embedOk searchHit ev0).predicted_case_id).isSome ∧
       ((process_classification summarizeErr embedOk searchHit ev0).similarity_score).isSome ∧
       ((process_classification summarizeErr embedOk searchHit ev0).generated_summary).isSome) := by
  decide

/-- C4 (amended): `process_classification` always sets
`predicted_case_id`; `similarity_score` and `generated_summary` are set on
every non-error path (candidate accepted, candidate rejected, and no
candidate), while on the error path only the `"ERROR"` marker is written
and the other two fields keep their incoming values — absent for a fresh
event. -/
theorem classify_output_fields (summarize : Event → Except String String)
    (embed : String → Except String (List ℚ))
    (search : List ℚ → Except String (Option (String × ℚ))) (ev : Event) :
    ((process_classification summarize embed search ev).predicted_case_id).isSome ∧
    (∀ x, classify_steps summarize embed search ev = .ok x →
      ((process_classification summarize embed search ev).similarity_score).isSome ∧
      ((process_classification summarize embed search ev).generated_summary).isSome) ∧
    (∀ msg, classify_steps summarize embed search ev = .error msg →
      (process_classification summarize embed search ev).similarity_score =
        ev.similarity_score ∧
      (process_classification summarize embed search ev).generated_summary =
        ev.generated_summary ∧
      (process_classification summarize embed search ev).predicted_case_id =
        some "ERROR") := by
  refine ⟨?_, ?_, ?_⟩
  · rcases hc : classify_steps summarize embed search ev with msg | ⟨summary, res⟩
    · simp [process_classification, hc]
    · rcases res with _ | ⟨cid, score⟩
      · simp [process_classification, hc]
      · by_cases hT : lookupThreshold cid ≤ score <;> simp [process_classification, hc, hT]
  · intro x hx
    obtain ⟨summary, res⟩ := x
    rcases res with _ | ⟨cid, score⟩
    · simp [process_classification, hx]
    · by_cases hT : lookupThreshold cid ≤ score <;> simp [process_classification, hx, hT]
  · intro msg hmsg
    simp [process_classification, hmsg]

/-- Witness for C4 (amended): the error path of the concrete failing run
leaves score and summary at their incoming (absent) values and writes only
the sentinel. -/
theorem classify_output_fields_witness :
    (process_classification summarizeErr embedOk searchHit ev0).similarity_score =
      ev0.similarity_score ∧
    (process_classification summarizeErr embedOk searchHit ev0).generated_summary =
      ev0.generated_summary ∧
    (process_classification summarizeErr embedOk searchHit ev0).predicted_case_id =
      some "ERROR" :=
  (classify_output_fields summarizeErr embedOk searchHit ev0).2.2 "LLM call failed" rfl

/-- Helper: inserting a step grows the sorted list by one. -/
theorem length_insertStep (s : CaseStep) :
    ∀ l : List CaseStep, (insertStep s l).length = l.length + 1
  | [] => rfl
  | t :: ts => by
    by_cases h : s.event_seq ≤ t.event_seq <;>
      simp [insertStep, h, length_insertStep s ts]

/-- Helper: the store-side sort preserves the number of hits. -/
theorem length_sortSteps : ∀ l : List CaseStep, (sortSteps l).length = l.length
  | [] => rfl
  | s :: ss => by simp [sortSteps, length_insertStep, length_sortSteps ss]

/-- The store of a case with 11 catalogued steps — one more than the
`"size": 10` cap of `get_reference_story`'s query. -/
def store11 : List CaseStep :=
  (List.range 11).map (fun i =>
    { case_id := "CASE-A", event_seq := i + 1, summary := "step summary " ++ toString (i + 1) })

set_option maxRecDepth 8192 in
/-- Counterexample for C6: with 11 steps catalogued for `CASE-A`, the story
built by the code omits step 11 (the query is capped at `"size": 10`), so
it is not the concatenation of *all* steps tagged with the case id that the
claim describes (`build_story_spec`). -/
theorem story_truncates_at_ten :
    get_reference_story store11 "CASE-A" ≠ build_story_spec store11 "CASE-A" := by decide

/-- C6 (amended): `build_story` behaves as claimed — fixed instructive
string for the sentinels, fixed no-reference-data string on an empty
result, and otherwise the ascending-by-sequence numbered narrative — except
that the query returns at most the first 10 steps; whenever the case has at
most 10 catalogued steps the built story coincides with the spec's
all-steps narrative.  The function is pure, so repeated calls on the same
store state trivially return identical text. -/
theorem story_builder_matches_spec (store : List CaseStep) (case_id : String)
    (h : (store.filter (fun s => s.case_id = case_id)).length ≤ 10) :
    get_reference_story store case_id = build_story_spec store case_id ∧
    get_reference_story store "UNKNOWN" = "참고할 과거 사례가 없습니다 (신규 위협 가능성)." ∧
    get_reference_story store "ERROR" = "참고할 과거 사례가 없습니다 (신규 위협 가능성)." ∧
    (case_id ≠ "UNKNOWN" → case_id ≠ "ERROR" →
      store.filter (fun s => s.case_id = case_id) = [] →
      get_reference_story store case_id = "참고 데이터 없음") := by
  have htake : caseStoreQuery store case_id =
      sortSteps (store.filter (fun s => s.case_id = case_id)) :=
    List.take_of_length_le (by rw [length_sortSteps]; exact h)
  refine ⟨?_, by simp [get_reference_story], by simp [get_reference_story], ?_⟩
  · unfold get_reference_story build_story_spec
    rw [htake]
  · intro h1 h2 hempty
    simp [get_reference_story, caseStoreQuery, h1, h2, hempty, sortSteps]

/-- A two-step store for `CASE-A`, listed out of order. -/
def store2 : List CaseStep :=
  [{ case_id := "CASE-A", event_seq := 2, summary := "lateral movement" },
   { case_id := "CASE-A", event_seq := 1, summary := "initial access" }]

/-- Witness for C6 (amended): a case with two catalogued steps is rendered
exactly as the spec's all-steps narrative. -/
theorem story_builder_matches_spec_witness :
    get_reference_story store2 "CASE-A" = build_story_spec store2 "CASE-A" :=
  (story_builder_matches_spec store2 "CASE-A" (by decide)).1

/-- Helper: a successful `event_map` lookup returns an event of the
bucket. -/
theorem event_map_mem {group_events : List Event} {eid : Nat} {ev : Event}
    (h : event_map group_events eid = some ev) : ev ∈ group_events := by
  have hmem : ev ∈ group_events.filter (fun e => e.tmp_index = some eid) := by
    obtain ⟨hne, rfl⟩ :=
      List.mem_getLast?_eq_getLast (show ev ∈ _ from Option.mem_def.mpr h)
    exact List.getLast_mem hne
  exact List.mem_of_mem_filter hmem

/-- Helper: fallback tickets contain only events of the bucket. -/
theorem mem_of_mem_fallback {evs : List Event} {t : Ticket} {ev : Event}
    (ht : t ∈ fallbackTickets evs) (hev : ev ∈ t.events) : ev ∈ evs := by
  obtain ⟨e, he, rfl⟩ := List.mem_map.mp ht
  simp only [List.mem_singleton] at hev
  exact hev ▸ he

/-- Helper: resolved tickets contain only events of the bucket. -/
theorem mem_of_mem_resolve {gs : List RawGroup} {evs : List Event} {t : Ticket} {ev : Event}
    (ht : t ∈ resolveGroups gs evs) (hev : ev ∈ t.events) : ev ∈ evs := by
  obtain ⟨g, _, rfl⟩ := List.mem_map.mp ht
  simp only at hev
  obtain ⟨eid, _, hmap⟩ := List.mem_filterMap.mp hev
  exact event_map_mem hmap

/-- Helper: `process_single_group` returns either the singleton fallback or
a resolution of some parsed group list over the bucket. -/
theorem process_single_group_cases (storyOf : String → Except String String)
    (outcome : GroupOutcome) (case_id : String) (group_events : List Event) :
    process_single_group storyOf outcome case_id group_events = fallbackTickets group_events ∨
    ∃ gs, process_single_group storyOf outcome case_id group_events =
      resolveGroups gs group_events := by
  unfold process_single_group
  by_cases hc : case_id = "UNKNOWN" ∨ case_id = "ERROR"
  · simp only [hc, if_true]
    cases outcome <;> simp only [group_events_by_context] <;>
      first
        | exact Or.inl trivial
        | exact Or.inr ⟨_, rfl⟩
  · simp only [hc, if_false]
    cases hs : storyOf case_id
    · exact Or.inl rfl
    · cases outcome <;> simp only [group_events_by_context] <;>
        first
          | exact Or.inl trivial
          | exact Or.inr ⟨_, rfl⟩

/-- `ev0` after the orchestrator's positional tagging. -/
def ev0tagged : Event := { ev0 with tmp_index := some 0 }

/-- A parsed grouping response referencing event id 0 (present in the
bucket) and event id 99 (absent from the bucket). -/
def g99 : RawGroup :=
  { ticket_title := "Credential theft #1", host := "HOST-1", event_ids := [0, 99],
    reason := "temporal continuity" }

/-- The ticket produced from `g99` over the bucket `[ev0tagged]`: id 99 is
silently dropped. -/
def t99 : Ticket :=
  { ticket_title := some "Credential theft #1", host := some "HOST-1",
    reason := some "temporal continuity", events := [ev0tagged] }

/-- C8: every ticket produced by `process_single_group` — on the resolution
path as well as on the fallback path — contains only events of the input
bucket: an `event_ids` entry not keyed in the bucket's `event_map` is
silently skipped by the resolution (which is total: it still yields one
ticket per parsed group, never an error). -/
theorem tickets_reference_only_bucket_events (storyOf : String → Except String String)
    (outcome : GroupOutcome) (case_id : String) (group_events : List Event) :
    (∀ t ∈ process_single_group storyOf outcome case_id group_events,
      ∀ ev ∈ t.events, ev ∈ group_events) ∧
    (∀ gs : List RawGroup, (resolveGroups gs group_events).length = gs.length) := by
  refine ⟨fun t ht ev hev => ?_, fun gs => by simp [resolveGroups]⟩
  rcases process_single_group_cases storyOf outcome case_id group_events with h | ⟨gs, h⟩
  · exact mem_of_mem_fallback (h ▸ ht) hev
  · exact mem_of_mem_resolve (h ▸ ht) hev

/-- Witness for C8: a grouping response naming ids 0 and 99 over the
one-event bucket resolves to a ticket holding only the bucket's event, and
that event is in the bucket. -/
theorem tickets_reference_only_bucket_events_witness : ev0tagged ∈ [ev0tagged] :=
  (tickets_reference_only_bucket_events storyOk (GroupOutcome.parsedList [g99])
      "CASE-A" [ev0tagged]).1 t99 (by decide) ev0tagged (by decide)

/-- C10: when the generative grouping response content is not parsable as
the expected JSON, `group_events_by_context` returns the empty list without
raising (`Except.ok []`, not `Except.error`), so `process_single_group`'s
exception-triggered fallback is not invoked and the bucket contributes no
tickets at all. -/
theorem unparsable_response_returns_empty_list (case_id : String) (events : List Event)
    (story s : String) :
    group_events_by_context GroupOutcome.unparsable case_id events story = Except.ok [] ∧
    process_single_group (fun _ => Except.ok s) GroupOutcome.unparsable case_id events = [] := by
  refine ⟨rfl, ?_⟩
  by_cases h : case_id = "UNKNOWN" ∨ case_id = "ERROR" <;>
    simp [process_single_group, group_events_by_context, resolveGroups, h]

/-- C7 (the code contradicts the claim): for a one-event bucket whose
clustering response cannot be parsed, the grouping stage emits **no**
tickets — the singleton fallback `fallbackTickets`, which the claim (and
spec §4.3) requires for unparsable output, is not applied because the
grouper's bare `except: return []` swallows the parse failure before the
orchestrator's exception handler can see it.  (The fallback does fire when
the clustering *call* raises.) -/
theorem parse_failure_skips_fallback :
    process_single_group storyOk GroupOutcome.unparsable "CASE-A" [ev0tagged] = [] ∧
    fallbackTickets [ev0tagged] = [{ events := [ev0tagged] }] := by decide

/-- C1 (the code contradicts the claim): a batch of one malicious event
whose (successful) classification leads to a bucket with an unparsable
grouping response produces zero output tickets, so the number of distinct
events referenced across all output tickets is 0 ≠ 1 — the event is
silently dropped and the fallback does not restore coverage, contrary to
the claimed every-event-in-exactly-one-ticket invariant. -/
theorem batch_coverage_lost_on_malformed_output :
    run_grouping [ev0] summarizeOk embedOk searchHit storyOk
      (fun _ => GroupOutcome.unparsable) = [] ∧
    [ev0].length = 1 := by decide
